import Mathlib

/-!
Verification of the BatchRename_Tg frontend (src/App.tsx, v8 variant) and, where
the backend engine (backend/server.py) is absent from the sources, of engine
behaviour modelled from the specification.  String primitives are embedded
structurally over `List Char` so that everything evaluates by `decide`/`rfl`.
-/

namespace BatchRename

/-- A whitespace character as recognised by JavaScript `String.prototype.trim`
(restricted to the ASCII whitespace actually occurring in filename lists). -/
def isSpaceChar (c : Char) : Bool :=
  c == ' ' || c == '\t' || c == '\n' || c == '\r'

/-- Embedding of JavaScript `s.trim()`: drop whitespace from both ends. -/
def trimStr (s : String) : String :=
  ⟨((s.data.dropWhile isSpaceChar).reverse.dropWhile isSpaceChar).reverse⟩

/-- Auxiliary splitter over the character list, accumulator holds the current
line reversed. -/
def splitLinesAux : List Char → List Char → List String
  | [], acc => [⟨acc.reverse⟩]
  | c :: cs, acc =>
    if c = '\n' then ⟨acc.reverse⟩ :: splitLinesAux cs []
    else splitLinesAux cs (c :: acc)

/-- Embedding of JavaScript `s.split("\n")`. -/
def splitLines (s : String) : List String :=
  splitLinesAux s.data []

/-- JavaScript truthiness of a string: non-empty. -/
def strTruthy (s : String) : Bool :=
  !s.data.isEmpty

/-- The non-blank lines of a textarea: `s.split("\n").filter(l => l.trim())`. -/
def nonBlankLines (s : String) : List String :=
  (splitLines s).filter (fun l => strTruthy (trimStr l))

/-- One requested rename, `{ old, new }` as built by the frontend. -/
structure Mapping where
  old : String
  new : String
deriving DecidableEq, Repr

/-- Embedding of the `mappings` `useMemo` (src/unnamed/part_000 lines 1673-1678):
pair the non-blank old lines with the non-blank new lines, trimmed, or return
`[]` when either side is empty or the counts differ. -/
def mappings (oldNames newNames : String) : List Mapping :=
  let oldLines := nonBlankLines oldNames
  let newLines := nonBlankLines newNames
  if oldLines.length = 0 ∨ newLines.length = 0 ∨ oldLines.length ≠ newLines.length then []
  else oldLines.zipWith (fun o n => { old := trimStr o, new := trimStr n }) newLines

/-- Job status enum of the frontend `JobState`. -/
inductive JobStatus where
  | idle
  | starting
  | scanning
  | renaming
  | done
  | error
deriving DecidableEq, Repr

/-- The frontend `JobState` (src/unnamed/part_000 lines 1027-1039, v8 variant). -/
structure JobState where
  jobId : Option String
  status : JobStatus
  progress : Nat
  total : Nat
  logs : List String
  error : Option String
  needsOtp : Bool
  sessionString : Option String
  renamed : Nat
  failed : Nat
  notFound : Nat
deriving DecidableEq, Repr

/-- The configuration held by the form fields when Start is pressed. -/
structure StartConfig where
  apiId : String
  apiHash : String
  phone : String
  srcChannel : String
  dstChannel : String
  deleteFromSrc : Bool
  sessionString : String
  oldNames : String
  newNames : String
deriving Repr

/-- Embedding of `ready` (line 1680): all five required fields truthy. -/
def ready (cfg : StartConfig) : Bool :=
  strTruthy cfg.apiId && strTruthy cfg.apiHash && strTruthy cfg.phone &&
    strTruthy cfg.srcChannel && strTruthy cfg.dstChannel

/-- The JSON body POSTed to `/api/start-rename` (line 1719). -/
structure StartRequest where
  api_id : String
  api_hash : String
  phone : String
  src_channel : String
  dst_channel : String
  delete_from_src : Bool
  session_string : Option String
  mappings : List Mapping
deriving DecidableEq, Repr

/-- Embedding of `handleStart` (lines 1711-1729): `none` when the guard
`!ready || mappings.length === 0` fires (no job state created, no request
sent); otherwise the freshly reset job state together with the request body
(`session_string: sessionString || null`). -/
def handleStart (cfg : StartConfig) : Option (JobState × StartRequest) :=
  let ms := mappings cfg.oldNames cfg.newNames
  if ¬ ready cfg ∨ ms.length = 0 then none
  else some
    ({ jobId := none
       status := JobStatus.starting
       progress := 0
       total := ms.length
       logs := ["🔄 Connecting to server..."]
       error := none
       needsOtp := false
       sessionString := none
       renamed := 0
       failed := 0
       notFound := 0 },
     { api_id := cfg.apiId
       api_hash := cfg.apiHash
       phone := cfg.phone
       src_channel := cfg.srcChannel
       dst_channel := cfg.dstChannel
       delete_from_src := cfg.deleteFromSrc
       session_string := if strTruthy cfg.sessionString then some cfg.sessionString else none
       mappings := ms })

/-- Every `setJob(prev => ...)` updater that can run after a job has started:
the two WebSocket message kinds (lines 1686-1704), the WebSocket error handler
(lines 1705-1707), the fetch-failure catch branch of `handleStart`
(lines 1725-1728) and the job-id assignment (line 1723).  Absent JSON fields
are `none`. -/
inductive WsEvent where
  | log (message : String)
  | status (status : JobStatus) (progress : Nat) (total : Nat) (needs_otp : Bool)
      (error : Option String) (session_string : Option String)
      (renamed : Option Nat) (failed : Option Nat) (not_found : Option Nat)
  | wsError
  | startFailed (message : String)
  | gotJobId (job_id : String)
deriving DecidableEq, Repr

/-- Embedding of the state updaters listed at `WsEvent`: how the frontend job
state reacts to one incoming event.  `?? prev.x` becomes `Option.getD` /
`Option.or`. -/
def applyEvent (prev : JobState) (e : WsEvent) : JobState :=
  match e with
  | .log message => { prev with logs := prev.logs ++ [message] }
  | .status s p t otp err sess r f nf =>
      { prev with
        status := s
        progress := p
        total := t
        needsOtp := otp
        error := err
        sessionString := sess.or prev.sessionString
        renamed := r.getD prev.renamed
        failed := f.getD prev.failed
        notFound := nf.getD prev.notFound }
  | .wsError =>
      { prev with
        status := JobStatus.error
        error := some "WebSocket connection failed. Is the backend running?" }
  | .startFailed message =>
      { prev with
        status := JobStatus.error
        error := some message
        logs := prev.logs ++ ["❌ Failed to start: " ++ message] }
  | .gotJobId job_id => { prev with jobId := some job_id }

/-- Embedding of the percentage computed by `ProgressBar`
(src/unnamed/part_000 line 1077): `max > 0 ? Math.round((value / max) * 100) : 0`. -/
def progressPct (value max : ℚ) : ℤ :=
  if max > 0 then round (value / max * 100) else 0

/-- Modelled from the spec: `submitOtp(code)` of the Job Supervisor lives in
backend/server.py, which is absent from src/.  Spec 4.1: valid only while
`needsOtp` is true; otherwise a no-op.  The second component is the code
delivered to the in-flight authentication attempt, if any. -/
def submitOtp (j : JobState) (code : String) : JobState × Option String :=
  if j.needsOtp then ({ j with needsOtp := false }, some code) else (j, none)

/-- Lower-case an ASCII letter, identity elsewhere. -/
def toLowerChar (c : Char) : Char :=
  if 'A' ≤ c ∧ c ≤ 'Z' then Char.ofNat (c.toNat + 32) else c

/-- Drop every bracketed/parenthesized segment; `d` is the current nesting
depth. -/
def stripBracketedAux : List Char → Nat → List Char
  | [], _ => []
  | c :: cs, d =>
    if c = '[' ∨ c = '(' then stripBracketedAux cs (d + 1)
    else if c = ']' ∨ c = ')' then stripBracketedAux cs (d - 1)
    else if d > 0 then stripBracketedAux cs d
    else c :: stripBracketedAux cs d

/-- A character kept by normalization: alphanumeric, a space, or a dot (dots
may belong to the extension). -/
def keepChar (c : Char) : Bool :=
  c.isAlphanum || c == ' ' || c == '.'

/-- Collapse runs of spaces; the flag records whether the previous kept
character was a space. -/
def collapseSpacesAux : List Char → Bool → List Char
  | [], _ => []
  | c :: cs, lastSpace =>
    if c = ' ' then
      if lastSpace then collapseSpacesAux cs true
      else ' ' :: collapseSpacesAux cs true
    else c :: collapseSpacesAux cs false

/-- Modelled from the spec: the Filename Normalizer lives in backend/server.py,
which is absent from src/.  Spec 4.2 tier 2: lower-case, strip
bracketed/parenthesized segments, collapse whitespace, remove punctuation not
part of an extension. -/
def normalizeName (s : String) : String :=
  trimStr ⟨collapseSpacesAux (((stripBracketedAux s.data 0).map toLowerChar).filter keepChar) true⟩

/-- The first contiguous digit run of a character list, if any. -/
def firstDigitRun : List Char → Option (List Char)
  | [] => none
  | c :: cs => if c.isDigit then some (c :: cs.takeWhile Char.isDigit) else firstDigitRun cs

/-- Numeric value of a digit run. -/
def digitsToNat (ds : List Char) : Nat :=
  ds.foldl (fun a c => a * 10 + (c.toNat - 48)) 0

/-- Modelled from the spec: episode-ordinal extraction of matcher tier 3
(backend/server.py, absent from src/) — the first contiguous digit run
interpretable as an episode ordinal. -/
def episodeNumber (s : String) : Option Nat :=
  (firstDigitRun s.data).map digitsToNat

/-- One file discovered while scanning the source channel (spec 3,
ChannelIndexEntry; the scanner lives in backend/server.py, absent from src/). -/
structure ChannelIndexEntry where
  messageId : Nat
  fileName : String
  fileSize : Nat
deriving DecidableEq, Repr

/-- The tier that resolved a Mapping (spec 3, `matchTier`). -/
inductive MatchTier where
  | exact
  | normalized
  | episode
deriving DecidableEq, Repr

/-- Tier 1: first entry whose stored name equals the requested name
byte-for-byte; ties resolve to the first-scanned entry. -/
def findExact (old : String) (es : List ChannelIndexEntry) : Option ChannelIndexEntry :=
  es.find? (fun e => e.fileName = old)

/-- Tier 2: first entry equal after normalization. -/
def findNormalized (old : String) (es : List ChannelIndexEntry) : Option ChannelIndexEntry :=
  es.find? (fun e => normalizeName e.fileName = normalizeName old)

/-- Tier 3: first entry whose episode number equals the requested one. -/
def findEpisode (old : String) (es : List ChannelIndexEntry) : Option ChannelIndexEntry :=
  match episodeNumber old with
  | none => none
  | some n => es.find? (fun e => episodeNumber e.fileName = some n)

/-- Modelled from the spec: the three-tier Fuzzy Matcher of backend/server.py
(absent from src/).  Spec 4.2: first-match-wins in the fixed order exact →
normalized → episode-number, candidates in scan order. -/
def matchName (old : String) (es : List ChannelIndexEntry) :
    Option (ChannelIndexEntry × MatchTier) :=
  match findExact old es with
  | some e => some (e, MatchTier.exact)
  | none =>
    match findNormalized old es with
    | some e => some (e, MatchTier.normalized)
    | none => (findEpisode old es).map (fun e => (e, MatchTier.episode))

/-- A status event carrying only the fields the engine model needs. -/
def statusEvent (s : JobStatus) (p t : Nat) : WsEvent :=
  WsEvent.status s p t false none none none none none

/-- Modelled from the spec: the status events the Job Supervisor
(backend/server.py, absent from src/) pushes over the WebSocket for a job of
`n` mappings.  Spec 4.1: scan once, then emit progress after every file —
progress starts at 0, increments by one per mapping, total is fixed at the
mapping count, ending in `done`. -/
def engineTrace (n : Nat) : List WsEvent :=
  statusEvent JobStatus.scanning 0 n ::
    statusEvent JobStatus.renaming 0 n ::
      ((List.range n).map (fun i => statusEvent JobStatus.renaming (i + 1) n) ++
        [statusEvent JobStatus.done n n])

/-- A fully-filled configuration with one mapping and a blank session token. -/
def cfgGood : StartConfig :=
  { apiId := "1"
    apiHash := "h"
    phone := "p"
    srcChannel := "s"
    dstChannel := "d"
    deleteFromSrc := false
    sessionString := ""
    oldNames := "a"
    newNames := "b" }

/-- `cfgGood` with the phone field blanked. -/
def cfgNoPhone : StartConfig :=
  { cfgGood with phone := "" }

/-- The job state `handleStart` installs for `cfgGood`. -/
def jobStarted : JobState :=
  { jobId := none
    status := JobStatus.starting
    progress := 0
    total := 1
    logs := ["🔄 Connecting to server..."]
    error := none
    needsOtp := false
    sessionString := none
    renamed := 0
    failed := 0
    notFound := 0 }

/-- The request body `handleStart` sends for `cfgGood`. -/
def reqStarted : StartRequest :=
  { api_id := "1"
    api_hash := "h"
    phone := "p"
    src_channel := "s"
    dst_channel := "d"
    delete_from_src := false
    session_string := none
    mappings := [{ old := "a", new := "b" }] }

/-- A job state that has already received a session string. -/
def jobWithSession : JobState :=
  { jobStarted with sessionString := some "tok" }

/-- A candidate whose stored name equals the requested name byte-for-byte. -/
def entryExact : ChannelIndexEntry :=
  { messageId := 2, fileName := "foo.mkv", fileSize := 10 }

/-- A candidate that matches the requested name only after normalization. -/
def entryNormOnly : ChannelIndexEntry :=
  { messageId := 1, fileName := "FOO.mkv", fileSize := 10 }

/-- A scan-ordered index holding the normalized-only candidate first. -/
def demoIndex : List ChannelIndexEntry :=
  [entryNormOnly, entryExact]

/-! Helper lemmas. -/

theorem strTruthy_false_iff (s : String) : strTruthy s = false ↔ s = "" := by
  constructor
  · intro h
    cases s with
    | mk data =>
      cases data with
      | nil => decide
      | cons c cs => simp [strTruthy] at h
  · intro h
    subst h
    decide

theorem strTruthy_true_iff (s : String) : strTruthy s = true ↔ s ≠ "" := by
  rw [ne_eq, ← strTruthy_false_iff s]
  cases strTruthy s <;> simp

theorem ready_iff (cfg : StartConfig) :
    ready cfg = true ↔
      cfg.apiId ≠ "" ∧ cfg.apiHash ≠ "" ∧ cfg.phone ≠ "" ∧
        cfg.srcChannel ≠ "" ∧ cfg.dstChannel ≠ "" := by
  simp [ready, Bool.and_eq_true, strTruthy_true_iff, and_assoc]

theorem scanl_applyEvent_all (P : JobState → Prop) :
    ∀ (evs : List WsEvent) (init : JobState), P init →
      (∀ s e, e ∈ evs → P s → P (applyEvent s e)) →
      ∀ s ∈ List.scanl applyEvent init evs, P s := by
  intro evs
  induction evs with
  | nil =>
    intro init h0 _ s hs
    simp [List.scanl] at hs
    subst hs
    exact h0
  | cons e rest ih =>
    intro init h0 hstep s hs
    rw [List.scanl_cons, List.singleton_append] at hs
    rcases List.mem_cons.mp hs with h | h
    · subst h
      exact h0
    · exact ih (applyEvent init e) (hstep init e (List.mem_cons_self e rest) h0)
        (fun s' e' he' hP => hstep s' e' (List.mem_cons_of_mem _ he') hP) s h

theorem engineTrace_progress_le (n : Nat) (e : WsEvent) (he : e ∈ engineTrace n) :
    ∃ st p, e = statusEvent st p n ∧ p ≤ n := by
  unfold engineTrace at he
  rcases List.mem_cons.mp he with rfl | he
  · exact ⟨_, _, rfl, Nat.zero_le n⟩
  rcases List.mem_cons.mp he with rfl | he
  · exact ⟨_, _, rfl, Nat.zero_le n⟩
  rcases List.mem_append.mp he with he | he
  · rcases List.mem_map.mp he with ⟨i, hi, rfl⟩
    exact ⟨_, _, rfl, Nat.succ_le_of_lt (List.mem_range.mp hi)⟩
  · rw [List.mem_singleton] at he
    subst he
    exact ⟨_, _, rfl, le_rfl⟩

/-! Claim theorems. -/

/-- Claim C1: a start request is rejected — no job state created and no start
call issued — when the Mapping list is empty or a required field is blank;
with a non-empty Mapping list and all required fields non-blank the start
proceeds and a Job is created. -/
theorem start_validation (cfg : StartConfig) :
    ((mappings cfg.oldNames cfg.newNames = [] ∨ cfg.apiId = "" ∨ cfg.apiHash = "" ∨
        cfg.phone = "" ∨ cfg.srcChannel = "" ∨ cfg.dstChannel = "") →
      handleStart cfg = none) ∧
    ((mappings cfg.oldNames cfg.newNames ≠ [] ∧ cfg.apiId ≠ "" ∧ cfg.apiHash ≠ "" ∧
        cfg.phone ≠ "" ∧ cfg.srcChannel ≠ "" ∧ cfg.dstChannel ≠ "") →
      ∃ j req, handleStart cfg = some (j, req) ∧ j.status = JobStatus.starting) := by
  constructor
  · intro h
    simp only [handleStart]
    rw [if_pos]
    rcases h with h | h
    · right
      simp [h]
    · left
      intro hr
      rcases (ready_iff cfg).mp hr with ⟨h1, h2, h3, h4, h5⟩
      rcases h with h | h | h | h | h
      exacts [h1 h, h2 h, h3 h, h4 h, h5 h]
  · rintro ⟨hm, h1, h2, h3, h4, h5⟩
    simp only [handleStart]
    rw [if_neg]
    · exact ⟨_, _, rfl, rfl⟩
    · push_neg
      exact ⟨(ready_iff cfg).mpr ⟨h1, h2, h3, h4, h5⟩,
        fun hl => hm (List.length_eq_zero.mp hl)⟩

/-- Claim C1 witness: a blank phone rejects the start; the fully-filled
configuration is accepted. -/
theorem start_validation_check :
    handleStart cfgNoPhone = none ∧ handleStart cfgGood ≠ none := by
  constructor
  · exact (start_validation cfgNoPhone).1 (by right; right; right; left; rfl)
  · obtain ⟨j, req, hj, _⟩ := (start_validation cfgGood).2 (by decide)
    rw [hj]
    simp

/-- Claim C2: with equally many (and at least one) non-blank old and new
lines, the Mapping list pairs the i-th trimmed old line with the i-th trimmed
new line, preserving input order; when the counts differ or either side has no
non-blank line, the Mapping list is empty. -/
theorem mappings_pairing (oldNames newNames : String) :
    ((nonBlankLines oldNames).length = (nonBlankLines newNames).length ∧
        nonBlankLines oldNames ≠ [] →
      (mappings oldNames newNames).length = (nonBlankLines oldNames).length ∧
      ∀ i, i < (nonBlankLines oldNames).length →
        (mappings oldNames newNames)[i]? =
          some { old := trimStr ((nonBlankLines oldNames).getD i "")
                 new := trimStr ((nonBlankLines newNames).getD i "") }) ∧
    ((nonBlankLines oldNames).length ≠ (nonBlankLines newNames).length ∨
        nonBlankLines oldNames = [] ∨ nonBlankLines newNames = [] →
      mappings oldNames newNames = []) := by
  constructor
  · rintro ⟨hlen, hne⟩
    have hm : mappings oldNames newNames =
        List.zipWith (fun o n => ({ old := trimStr o, new := trimStr n } : Mapping))
          (nonBlankLines oldNames) (nonBlankLines newNames) := by
      simp only [mappings]
      rw [if_neg]
      push_neg
      exact ⟨fun h => hne (List.length_eq_zero.mp h),
        fun h => hne (List.length_eq_zero.mp (hlen.trans h)), hlen⟩
    have hlz : (mappings oldNames newNames).length = (nonBlankLines oldNames).length := by
      rw [hm, List.length_zipWith, ← hlen, Nat.min_self]
    refine ⟨hlz, ?_⟩
    intro i hi
    have hi2 : i < (nonBlankLines newNames).length := hlen ▸ hi
    have hiz : i < (List.zipWith (fun o n => ({ old := trimStr o, new := trimStr n } : Mapping))
        (nonBlankLines oldNames) (nonBlankLines newNames)).length := by
      rw [← hm, hlz]
      exact hi
    rw [hm, List.getElem?_eq_getElem hiz, List.getElem_zipWith]
    rw [List.getD_eq_getElem _ _ hi, List.getD_eq_getElem _ _ hi2]
  · intro h
    simp only [mappings]
    rw [if_pos]
    rcases h with h | h | h
    · right
      right
      exact h
    · left
      simp [h]
    · right
      left
      simp [h]

/-- Claim C2 witness: two non-blank lines on each side pair up index-wise,
trimmed, with blank lines skipped. -/
theorem mappings_pairing_check :
    (mappings "a\n\nb" " x \ny").length = (nonBlankLines "a\n\nb").length ∧
    (mappings "a\n\nb" " x \ny")[0]? =
      some { old := trimStr ((nonBlankLines "a\n\nb").getD 0 "")
             new := trimStr ((nonBlankLines " x \ny").getD 0 "") } := by
  have h := (mappings_pairing "a\n\nb" " x \ny").1 (by decide)
  exact ⟨h.1, h.2 0 (by decide)⟩

/-- Claim C3: the session token is optional — a request with all required
fields filled, a non-empty Mapping list and a blank token is not rejected, and
the blank token is transmitted as null. -/
theorem session_optional (cfg : StartConfig) (hready : ready cfg = true)
    (hm : mappings cfg.oldNames cfg.newNames ≠ []) (hsess : cfg.sessionString = "") :
    ∃ j req, handleStart cfg = some (j, req) ∧ req.session_string = none := by
  simp only [handleStart]
  rw [if_neg]
  · refine ⟨_, _, rfl, ?_⟩
    simp only [hsess]
    rw [if_neg]
    simp [strTruthy]
  · push_neg
    exact ⟨by simp [hready], fun hl => hm (List.length_eq_zero.mp hl)⟩

/-- Claim C3 witness: `cfgGood` has a blank session token, is accepted, and
its request carries a null `session_string`. -/
theorem session_optional_check :
    (handleStart cfgGood).map (fun jr => jr.2.session_string) = some none := by
  obtain ⟨j, req, hj, hs⟩ := session_optional cfgGood (by decide) (by decide) rfl
  rw [hj, Option.map_some']
  rw [hs]

/-- Claim C4: when the candidate set holds both an exact-name match and a
normalized-only match for the requested name, the matcher selects an exact
match; the three tiers are tried in the fixed order exact → normalized →
episode-number and the first tier producing a match wins. -/
theorem matcher_precedence :
    (∀ old es, (∃ e ∈ es, e.fileName = old) →
      (∃ e ∈ es, e.fileName ≠ old ∧ normalizeName e.fileName = normalizeName old) →
      ∃ e ∈ es, e.fileName = old ∧ matchName old es = some (e, MatchTier.exact)) ∧
    (∀ old es e, findExact old es = none → findNormalized old es = some e →
      matchName old es = some (e, MatchTier.normalized)) ∧
    (∀ old es, findExact old es = none → findNormalized old es = none →
      matchName old es = (findEpisode old es).map (fun e => (e, MatchTier.episode))) := by
  refine ⟨?_, ?_, ?_⟩
  · intro old es hex _hnorm
    obtain ⟨e, he, hname⟩ := hex
    have hsome : (findExact old es).isSome := by
      rw [findExact, List.find?_isSome]
      exact ⟨e, he, by simp [hname]⟩
    obtain ⟨e', he'⟩ := Option.isSome_iff_exists.mp hsome
    refine ⟨e', List.mem_of_find?_eq_some he', ?_, ?_⟩
    · simpa using List.find?_some he'
    · unfold matchName
      rw [he']
  · intro old es e hex hnorm
    unfold matchName
    rw [hex, hnorm]
  · intro old es hex hnorm
    unfold matchName
    rw [hex, hnorm]

/-- Claim C4 witness: with the normalized-only candidate scanned first and the
exact candidate second, the matcher still returns the exact candidate at tier
`exact`. -/
theorem matcher_precedence_check :
    matchName "foo.mkv" demoIndex = some (entryExact, MatchTier.exact) := by
  have h := matcher_precedence.1 "foo.mkv" demoIndex
    ⟨entryExact, by decide, by decide⟩
    ⟨entryNormOnly, by decide, by decide, by decide⟩
  decide

/-- Claim C5: immediately after an accepted start request the job has
`progress = 0` and `total` equal to the Mapping count, and at every observable
point along the engine's status trace `progress ≤ total` with `total` still
equal to the Mapping count. -/
theorem progress_invariant (cfg : StartConfig) (j : JobState) (req : StartRequest)
    (h : handleStart cfg = some (j, req)) :
    j.progress = 0 ∧ j.total = (mappings cfg.oldNames cfg.newNames).length ∧
    ∀ s ∈ List.scanl applyEvent j (engineTrace j.total),
      s.progress ≤ s.total ∧ s.total = (mappings cfg.oldNames cfg.newNames).length := by
  simp only [handleStart] at h
  split at h
  · exact absurd h (by simp)
  · rw [Option.some.injEq, Prod.mk.injEq] at h
    obtain ⟨hj, _⟩ := h
    subst hj
    refine ⟨rfl, rfl, ?_⟩
    exact scanl_applyEvent_all
      (fun s => s.progress ≤ s.total ∧ s.total = (mappings cfg.oldNames cfg.newNames).length)
      _ _ ⟨Nat.zero_le _, rfl⟩
      (fun s e he _ => by
        obtain ⟨st, p, rfl, hp⟩ := engineTrace_progress_le _ e he
        exact ⟨hp, rfl⟩)

/-- Claim C5 witness: for the accepted configuration `cfgGood` the created job
starts at `progress = 0` with `total` equal to its single mapping. -/
theorem progress_invariant_check :
    jobStarted.progress = 0 ∧ jobStarted.total = (mappings "a" "b").length := by
  have h := progress_invariant cfgGood jobStarted reqStarted (by decide)
  exact ⟨h.1, h.2.1⟩

/-- Claim C6: while `needsOtp` is false, the OTP-submit operation is a no-op —
the job state is unchanged and no code is delivered to the authentication
attempt. -/
theorem submitOtp_noop (j : JobState) (code : String) (h : j.needsOtp = false) :
    submitOtp j code = (j, none) := by
  simp [submitOtp, h]

/-- Claim C6 witness: submitting an OTP against the freshly started job (which
does not need one) changes nothing and delivers nothing. -/
theorem submitOtp_noop_check : submitOtp jobStarted "12345" = (jobStarted, none) :=
  submitOtp_noop jobStarted "12345" rfl

/-- Claim C7: the logs are append-only — every event either leaves the logs
unchanged or extends them at the end; no existing entry is removed or
altered. -/
theorem logs_append_only (prev : JobState) (e : WsEvent) :
    ∃ tail, (applyEvent prev e).logs = prev.logs ++ tail := by
  cases e with
  | log m => exact ⟨[m], rfl⟩
  | status s p t otp err sess r f nf => exact ⟨[], by simp [applyEvent]⟩
  | wsError => exact ⟨[], by simp [applyEvent]⟩
  | startFailed m => exact ⟨["❌ Failed to start: " ++ m], rfl⟩
  | gotJobId jid => exact ⟨[], by simp [applyEvent]⟩

/-- Claim C8: a status event whose `session_string` is null or absent leaves
the stored session string unchanged, and once the stored session string is
non-null no event resets it to null. -/
theorem session_persistence :
    (∀ (prev : JobState) (s : JobStatus) (p t : Nat) (otp : Bool)
        (err : Option String) (r f nf : Option Nat),
      (applyEvent prev (WsEvent.status s p t otp err none r f nf)).sessionString =
        prev.sessionString) ∧
    (∀ (prev : JobState) (e : WsEvent), prev.sessionString.isSome = true →
      (applyEvent prev e).sessionString.isSome = true) := by
  constructor
  · intro prev s p t otp err r f nf
    simp [applyEvent, Option.or]
  · intro prev e h
    cases e with
    | log m => simpa [applyEvent] using h
    | status s p t otp err sess r f nf =>
      cases sess with
      | none => simpa [applyEvent, Option.or] using h
      | some v => simp [applyEvent, Option.or]
    | wsError => simpa [applyEvent] using h
    | startFailed m => simpa [applyEvent] using h
    | gotJobId jid => simpa [applyEvent] using h

/-- Claim C8 witness: a WebSocket error does not clear an already-received
session string. -/
theorem session_persistence_check :
    (applyEvent jobWithSession WsEvent.wsError).sessionString.isSome = true :=
  session_persistence.2 jobWithSession WsEvent.wsError rfl

/-- Claim C9: a log event changes only the logs — status, progress, total,
needsOtp, error, sessionString, renamed, failed and notFound keep their
previous values. -/
theorem log_event_frame (prev : JobState) (message : String) :
    (applyEvent prev (WsEvent.log message)).status = prev.status ∧
    (applyEvent prev (WsEvent.log message)).progress = prev.progress ∧
    (applyEvent prev (WsEvent.log message)).total = prev.total ∧
    (applyEvent prev (WsEvent.log message)).needsOtp = prev.needsOtp ∧
    (applyEvent prev (WsEvent.log message)).error = prev.error ∧
    (applyEvent prev (WsEvent.log message)).sessionString = prev.sessionString ∧
    (applyEvent prev (WsEvent.log message)).renamed = prev.renamed ∧
    (applyEvent prev (WsEvent.log message)).failed = prev.failed ∧
    (applyEvent prev (WsEvent.log message)).notFound = prev.notFound :=
  ⟨rfl, rfl, rfl, rfl, rfl, rfl, rfl, rfl, rfl⟩

/-- Claim C10: the progress-bar percentage is total — 0 whenever `max` is not
positive, and `round (100 * value / max)` whenever `max` is positive. -/
theorem progress_pct_total (value max : ℚ) :
    (max ≤ 0 → progressPct value max = 0) ∧
    (0 < max → progressPct value max = round (100 * value / max)) := by
  constructor
  · intro h
    simp [progressPct, not_lt.mpr h]
  · intro h
    rw [progressPct, if_pos h]
    congr 1
    ring

/-- Claim C10 witness: a zero `max` yields 0 and a positive `max` yields the
rounded ratio. -/
theorem progress_pct_total_check :
    progressPct 1 0 = 0 ∧ progressPct 1 2 = round (100 * 1 / 2 : ℚ) :=
  ⟨(progress_pct_total 1 0).1 le_rfl, (progress_pct_total 1 2).2 (by norm_num)⟩

end BatchRename
